import Mathlib

/-
Verification of the docker-monitor dashboard core: the Bubbletea state
machine (internal/tui), the time-series storage layer (internal/storage)
and the Docker stats/log parsing helpers (internal/docker).

Embedding conventions, used consistently below:
- Go float64 values are modelled as rationals; Go uint64 arithmetic is
  modelled on Nat with an explicit wrap modulo 2^64 where Go wraps.
- Go strings are Lean strings, except in truncate where the byte slicing
  is modelled on lists of characters so that slice bounds are explicit.
- A nil-able cancellation handle or channel is modelled by a Bool that
  records whether the handle/channel is currently non-nil; invoking a
  cancel function has no effect on the dashboard state itself.
- The buffered write channel of the store (capacity 1000) is modelled as
  the list of currently queued entries.
- tea.Cmd values returned by Update are modelled by an inductive Cmd
  naming the side effect that the returned command would schedule.
- time.Now() is passed in explicitly as a Nat of Unix seconds.
-/

namespace DockerMonitor

/-- Go model.Port (internal/model/logs.go, second revision). -/
structure Port where
  private_ : Int
  public : Int
  type : String
deriving DecidableEq, Repr

/-- Go model.Container (internal/model/logs.go, second revision): identity,
names and the free-text state/status strings; Created is Unix seconds. -/
structure Container where
  id : String
  name : String
  image : String
  status : String
  state : String
  created : Nat
  ports : List Port
  displayStatus : String
deriving DecidableEq, Repr

/-- Go model.Process (internal/model/process.go). -/
structure Process where
  pid : String
  user : String
  cpu : String
  memory : String
  command : String
deriving DecidableEq, Repr

/-- Go model.Stats (internal/model/stats.go, full revision) together with the
Processes field attached by the stats stream; float64 fields are rationals,
uint64 fields are Nat, the timestamp is Unix nanoseconds as a Nat. -/
structure Stats where
  cpuPercent : ℚ
  memoryUsage : Nat
  memoryLimit : Nat
  memoryPercent : ℚ
  memoryCache : Nat
  networkRx : Nat
  networkTx : Nat
  networkRxPackets : Nat
  networkTxPackets : Nat
  networkRxErrors : Nat
  networkTxErrors : Nat
  networkRxDropped : Nat
  networkTxDropped : Nat
  blockRead : Nat
  blockWrite : Nat
  pids : Nat
  timestamp : Nat
  processes : List Process
deriving DecidableEq, Repr

/-- Go model.LogEntry (internal/model/logs.go); the timestamp is Unix
nanoseconds as a Nat, the stream tag is the string written by the parser. -/
structure LogEntry where
  timestamp : Nat
  message : String
  stream : String
deriving DecidableEq, Repr

/-- Go storage.StatsEntry (internal/storage): the persisted row; the
timestamp is Unix seconds (entry.Timestamp.Unix() as written by batchWrite). -/
structure StatsEntry where
  containerID : String
  timestamp : Nat
  cpuPercent : ℚ
  memoryPercent : ℚ
  memoryUsage : Nat
  memoryLimit : Nat
  networkRx : Nat
  networkTx : Nat
  blockRead : Nat
  blockWrite : Nat
  pids : Nat
deriving DecidableEq, Repr

/-- Go storage.DataPoint: one row returned by Query. -/
structure DataPoint where
  timestamp : Nat
  cpuPercent : ℚ
  memoryPercent : ℚ
deriving DecidableEq, Repr

/-- Go storage.TimeRange (the five iota constants). -/
inductive TimeRange where
  | range30Min
  | range1Hour
  | range6Hour
  | range1Day
  | range1Week
deriving DecidableEq, Repr

/-- Go TimeRange.Duration, in seconds (the Go value is a time.Duration in
nanoseconds; only its second count reaches the cutoff computation). -/
def TimeRange.durationSec : TimeRange → Nat
  | .range30Min => 30 * 60
  | .range1Hour => 60 * 60
  | .range6Hour => 6 * 60 * 60
  | .range1Day => 24 * 60 * 60
  | .range1Week => 7 * 24 * 60 * 60

/-- Bucket width in seconds chosen by Query for the aggregated ranges; Go
leaves the variable at its zero value on the full-resolution path, which
returns before the bucket width is consulted. -/
def TimeRange.bucketSize : TimeRange → Nat
  | .range30Min => 0
  | .range1Hour => 30
  | .range6Hour => 300
  | .range1Day => 600
  | .range1Week => 3600

/-- Side effects scheduled by Update, one constructor per tea.Cmd
constructor used in internal/tui (helpers.go and the command file). -/
inductive Cmd where
  | quit
  | tickCmd
  | fetchContainers
  | startContainer (id name : String)
  | stopContainer (id name : String)
  | restartContainer (id name : String)
  | waitForStats
  | waitForLogs
deriving DecidableEq, Repr

/-- Messages consumed by Update: window sizes, key presses (by their
msg.String() value), the tick, and the four result messages; Go error
values are modelled as Option String. -/
inductive Msg where
  | windowSize (width height : Int)
  | key (k : String)
  | tick
  | containersMsg (containers : List Container) (err : Option String)
  | actionMsg (message : String) (err : Option String)
  | statsMsg (stats : Option Stats) (err : Option String)
  | logsMsg (entry : LogEntry) (err : Option String)
deriving DecidableEq, Repr

/-- Go tui.Model (internal/tui/model.go): the dashboard state. Cancel
handles and channels are Bools recording non-nil-ness; the attached store
is modelled by its bounded write queue (none when no store is attached). -/
structure Model where
  containers : List Container
  cursor : Int
  err : Option String
  loading : Bool
  message : String
  currentStats : Option Stats
  previousStats : Option Stats
  currentProcesses : List Process
  statsCancel : Bool
  width : Int
  height : Int
  logs : List LogEntry
  logsCancel : Bool
  logsScroll : Int
  logsAutoScroll : Bool
  logsChanOpen : Bool
  logsErrChanOpen : Bool
  statsChanOpen : Bool
  statsErrChanOpen : Bool
  currentContainerID : String
  cpuHistory : List ℚ
  memoryHistory : List ℚ
  maxDataPoints : Nat
  storage : Option (List StatsEntry)
  timeRange : TimeRange
  focusedPanel : Int
deriving DecidableEq, Repr

/-- Go storage.Storage.Write: a non-blocking select on the buffered write
channel of capacity 1000; the entry is enqueued when there is room and
dropped silently otherwise. -/
def storageWrite (queue : List StatsEntry) (entry : StatsEntry) : List StatsEntry :=
  if queue.length < 1000 then queue ++ [entry] else queue

/-- Go tui.Model.calculateVisibleLogLines: int(float64(height) * 0.4) minus
the reserved rows, floored at one line. The float multiplication and int
truncation agree with height * 2 / 5 for every realistic non-negative
terminal height. -/
def calculateVisibleLogLines (m : Model) : Int :=
  let bottomHeight : Int := m.height * 2 / 5
  let visibleLines := bottomHeight - 8
  if visibleLines < 1 then 1 else visibleLines

/-- Go tui.Model.calculateMaxScroll. -/
def calculateMaxScroll (m : Model) : Int :=
  let visibleLines := calculateVisibleLogLines m
  let maxScroll := (m.logs.length : Int) - visibleLines
  if maxScroll < 0 then 0 else maxScroll

/-- Go tui.containersListChanged (internal/tui/helpers.go): a length change,
or any positional change of container ID or state. -/
def containersListChanged (old nw : List Container) : Bool :=
  if old.length ≠ nw.length then true
  else (old.zip nw).any (fun p => p.1.id ≠ p.2.id || p.1.state ≠ p.2.state)

/-- Zero value used to model the (reachability-guarded) Go index expression
containers[cursor]; see the cursor-bounds invariant below. -/
def defaultContainer : Container :=
  { id := "", name := "", image := "", status := "", state := "", created := 0,
    ports := [], displayStatus := "" }

/-- Stats-streaming section of Go updateStatsAndLogsForCursor: restart the
stats stream when the container changed or no stream is active; tear it
down and clear the current sample when the container is not running. -/
def statsBlock (m : Model) (container : Container) (containerChanged : Bool) :
    Model × List Cmd :=
  if container.state = "running" then
    if containerChanged || !m.statsCancel then
      ({ m with statsCancel := true, statsChanOpen := true, statsErrChanOpen := true },
       [Cmd.waitForStats])
    else
      (m, [])
  else
    ({ m with statsCancel := false, currentStats := none }, [])

/-- Logs-streaming section of Go updateStatsAndLogsForCursor: only entered
when the selected container actually changed; resets the log buffer, the
scroll state and both rolling-history arrays, then opens a log stream when
the new container is running, and records the new container id. -/
def logsBlock (m : Model) (container : Container) (containerChanged : Bool) :
    Model × List Cmd :=
  if containerChanged then
    let m0 := if m.logsCancel then
        { m with logsCancel := false, logsChanOpen := false, logsErrChanOpen := false }
      else m
    let m1 := { m0 with
      logs := [], logsScroll := 0, logsAutoScroll := true,
      cpuHistory := List.replicate m0.maxDataPoints 0,
      memoryHistory := List.replicate m0.maxDataPoints 0,
      currentProcesses := [],
      currentContainerID := container.id }
    if container.state = "running" then
      ({ m1 with logsCancel := true, logsChanOpen := true, logsErrChanOpen := true },
       [Cmd.waitForLogs])
    else
      (m1, [])
  else
    (m, [])

/-- Go tui.Model.updateStatsAndLogsForCursor (internal/tui/helpers.go). -/
def updateStatsAndLogsForCursor (m : Model) : Model × List Cmd :=
  if m.containers.length = 0 then (m, [])
  else
    let container := m.containers.getD m.cursor.toNat defaultContainer
    let containerChanged := m.currentContainerID != container.id
    let s := statsBlock m container containerChanged
    let l := logsBlock s.1 container containerChanged
    (l.1, s.2 ++ l.2)

/-- Go Update, case "ctrl+c", "q": invoke both cancel handles and quit. -/
def keyQuit (m : Model) : Model × List Cmd := (m, [Cmd.quit])

/-- Go Update, case "up", "k": move the cursor up when possible and re-run
the stream lifecycle transition. -/
def keyUp (m : Model) : Model × List Cmd :=
  if 0 < m.cursor then updateStatsAndLogsForCursor { m with cursor := m.cursor - 1 }
  else (m, [])

/-- Go Update, case "down", "j": move the cursor down when possible and
re-run the stream lifecycle transition. -/
def keyDown (m : Model) : Model × List Cmd :=
  if m.cursor < (m.containers.length : Int) - 1 then
    updateStatsAndLogsForCursor { m with cursor := m.cursor + 1 }
  else (m, [])

/-- Go Update, case "pgup": scroll the logs up by half a page and disable
auto-scroll. -/
def keyPgUp (m : Model) : Model × List Cmd :=
  if 0 < m.logsScroll then
    let visibleLines := calculateVisibleLogLines m
    let scrollAmount0 := visibleLines / 2
    let scrollAmount := if scrollAmount0 < 1 then 1 else scrollAmount0
    let ns := m.logsScroll - scrollAmount
    ({ m with logsScroll := if ns < 0 then 0 else ns, logsAutoScroll := false }, [])
  else (m, [])

/-- Go Update, case "pgdown": scroll the logs down by half a page and
re-enable auto-scroll when the bottom is reached. -/
def keyPgDown (m : Model) : Model × List Cmd :=
  let visibleLines := calculateVisibleLogLines m
  let maxScroll := calculateMaxScroll m
  let scrollAmount0 := visibleLines / 2
  let scrollAmount := if scrollAmount0 < 1 then 1 else scrollAmount0
  let ns := m.logsScroll + scrollAmount
  if maxScroll ≤ ns then
    ({ m with logsScroll := maxScroll, logsAutoScroll := true }, [])
  else
    ({ m with logsScroll := ns }, [])

/-- Go Update, case "home". -/
def keyHome (m : Model) : Model × List Cmd :=
  ({ m with logsScroll := 0, logsAutoScroll := false }, [])

/-- Go Update, case "end". -/
def keyEnd (m : Model) : Model × List Cmd :=
  ({ m with logsScroll := calculateMaxScroll m, logsAutoScroll := true }, [])

/-- Go Update, case "a": toggle auto-scroll. -/
def keyToggleAutoScroll (m : Model) : Model × List Cmd :=
  let t := !m.logsAutoScroll
  ({ m with logsAutoScroll := t,
            logsScroll := if t then calculateMaxScroll m else m.logsScroll }, [])

/-- Go Update, case "c": clear the log buffer. -/
def keyClearLogs (m : Model) : Model × List Cmd :=
  ({ m with logs := [], logsScroll := 0 }, [])

/-- Go Update, case "s": start the selected container. -/
def keyStart (m : Model) : Model × List Cmd :=
  if 0 < m.containers.length then
    let c := m.containers.getD m.cursor.toNat defaultContainer
    (m, [Cmd.startContainer c.id c.name])
  else (m, [])

/-- Go Update, case "x": stop the selected container. -/
def keyStop (m : Model) : Model × List Cmd :=
  if 0 < m.containers.length then
    let c := m.containers.getD m.cursor.toNat defaultContainer
    (m, [Cmd.stopContainer c.id c.name])
  else (m, [])

/-- Go Update, case "r": restart the selected container. -/
def keyRestart (m : Model) : Model × List Cmd :=
  if 0 < m.containers.length then
    let c := m.containers.getD m.cursor.toNat defaultContainer
    (m, [Cmd.restartContainer c.id c.name])
  else (m, [])

/-- Go Update, case "R": manual refresh. -/
def keyRefresh (m : Model) : Model × List Cmd :=
  ({ m with loading := true, message := "Refreshing..." }, [Cmd.fetchContainers])

/-- Go Update, cases "1" through "5": select the active TimeRange. -/
def keySetRange (m : Model) (tr : TimeRange) : Model × List Cmd :=
  ({ m with timeRange := tr }, [])

/-- Go Update, case "tab": cycle the focused panel forward. -/
def keyTab (m : Model) : Model × List Cmd :=
  ({ m with focusedPanel := (m.focusedPanel + 1) % 4 }, [])

/-- Go Update, case "shift+tab": cycle the focused panel backward. -/
def keyShiftTab (m : Model) : Model × List Cmd :=
  ({ m with focusedPanel := (m.focusedPanel + 3) % 4 }, [])

/-- Key-message section of Go tui.Model.Update: the switch on
msg.String(), one helper definition per case arm. Unhandled keys leave
the model unchanged and schedule nothing, like the missing default case
in Go. -/
def updateKey (m : Model) (k : String) : Model × List Cmd :=
  if k = "ctrl+c" ∨ k = "q" then keyQuit m
  else if k = "up" ∨ k = "k" then keyUp m
  else if k = "down" ∨ k = "j" then keyDown m
  else if k = "pgup" then keyPgUp m
  else if k = "pgdown" then keyPgDown m
  else if k = "home" then keyHome m
  else if k = "end" then keyEnd m
  else if k = "a" then keyToggleAutoScroll m
  else if k = "c" then keyClearLogs m
  else if k = "s" then keyStart m
  else if k = "x" then keyStop m
  else if k = "r" then keyRestart m
  else if k = "R" then keyRefresh m
  else if k = "1" then keySetRange m .range30Min
  else if k = "2" then keySetRange m .range1Hour
  else if k = "3" then keySetRange m .range6Hour
  else if k = "4" then keySetRange m .range1Day
  else if k = "5" then keySetRange m .range1Week
  else if k = "tab" then keyTab m
  else if k = "shift+tab" then keyShiftTab m
  else (m, [])

/-- containersMsg section of Go tui.Model.Update: record an error without
touching the list, otherwise replace the snapshot, clamp the cursor into
bounds when the new list is non-empty, and re-run the lifecycle transition
when the (id, state) sequence changed. -/
def updateContainersMsg (m : Model) (cs : List Container) (err : Option String) :
    Model × List Cmd :=
  let m0 := { m with loading := false }
  match err with
  | some e => ({ m0 with err := some e }, [])
  | none =>
    let changed := containersListChanged m0.containers cs
    let m1 := { m0 with containers := cs }
    let m2 :=
      if (m1.containers.length : Int) ≤ m1.cursor ∧ 0 < m1.containers.length then
        { m1 with cursor := (m1.containers.length : Int) - 1 }
      else m1
    if changed then updateStatsAndLogsForCursor m2 else (m2, [])

/-- actionMsg section of Go tui.Model.Update. -/
def updateActionMsg (m : Model) (message : String) (err : Option String) :
    Model × List Cmd :=
  match err with
  | some e => ({ m with message := "Error: " ++ e }, [Cmd.fetchContainers])
  | none => ({ m with message := message }, [Cmd.fetchContainers])

/-- statsMsg section of Go tui.Model.Update: an error only sets the status
message and re-arms the wait on the same channels; a sample replaces the
current stats, shifts both rolling-history arrays, enqueues a StatsEntry
on the attached store, and merges a freshly fetched process snapshot. -/
def updateStatsMsg (m : Model) (stats : Option Stats) (err : Option String)
    (now : Nat) : Model × List Cmd :=
  match err with
  | some e => ({ m with message := "Stats error: " ++ e }, [Cmd.waitForStats])
  | none =>
    let m1 := { m with currentStats := stats, message := "" }
    match stats with
    | none => (m1, [Cmd.waitForStats])
    | some s =>
      let m2 := { m1 with
        cpuHistory := m1.cpuHistory.drop 1 ++ [s.cpuPercent],
        memoryHistory := m1.memoryHistory.drop 1 ++ [s.memoryPercent] }
      let m3 :=
        match m2.storage with
        | some q =>
          if 0 < m2.containers.length then
            let c := m2.containers.getD m2.cursor.toNat defaultContainer
            { m2 with storage := some (storageWrite q
                { containerID := c.id, timestamp := now,
                  cpuPercent := s.cpuPercent, memoryPercent := s.memoryPercent,
                  memoryUsage := s.memoryUsage, memoryLimit := s.memoryLimit,
                  networkRx := s.networkRx, networkTx := s.networkTx,
                  blockRead := s.blockRead, blockWrite := s.blockWrite,
                  pids := s.pids }) }
          else m2
        | none => m2
      let m4 := if s.processes.length ≠ 0 then { m3 with currentProcesses := s.processes }
        else m3
      (m4, [Cmd.waitForStats])

/-- logsMsg section of Go tui.Model.Update: an error only sets the status
message and re-arms the wait; a non-empty entry is appended, the buffer is
truncated to the most recent 1000 entries, and auto-scroll advances the
scroll position; an empty entry is discarded. -/
def updateLogsMsg (m : Model) (entry : LogEntry) (err : Option String) :
    Model × List Cmd :=
  match err with
  | some e => ({ m with message := "Logs error: " ++ e }, [Cmd.waitForLogs])
  | none =>
    if entry.message ≠ "" then
      let logs1 := m.logs ++ [entry]
      let logs2 := if 1000 < logs1.length then logs1.drop (logs1.length - 1000) else logs1
      let m1 := { m with logs := logs2 }
      let m2 := if m1.logsAutoScroll then { m1 with logsScroll := calculateMaxScroll m1 }
        else m1
      (m2, [Cmd.waitForLogs])
    else
      (m, [Cmd.waitForLogs])

/-- Go tui.Model.Update (internal/tui/helpers.go): the single-threaded
message-ordered transition function of the dashboard. -/
def update (m : Model) (msg : Msg) (now : Nat) : Model × List Cmd :=
  match msg with
  | .windowSize w h => ({ m with width := w, height := h }, [])
  | .key k => updateKey m k
  | .tick => (m, [Cmd.fetchContainers, Cmd.tickCmd])
  | .containersMsg cs err => updateContainersMsg m cs err
  | .actionMsg s err => updateActionMsg m s err
  | .statsMsg s err => updateStatsMsg m s err now
  | .logsMsg e err => updateLogsMsg m e err

/-- Go tui.NewModel (internal/tui/model.go): the initial dashboard state;
unset Go fields take their zero values. -/
def NewModel (store : Option (List StatsEntry)) : Model :=
  { containers := [], cursor := 0, err := none, loading := true, message := "",
    currentStats := none, previousStats := none, currentProcesses := [],
    statsCancel := false, width := 0, height := 0,
    logs := [], logsCancel := false, logsScroll := 0, logsAutoScroll := false,
    logsChanOpen := false, logsErrChanOpen := false,
    statsChanOpen := false, statsErrChanOpen := false,
    currentContainerID := "",
    cpuHistory := List.replicate 150 0,
    memoryHistory := List.replicate 150 0,
    maxDataPoints := 150,
    storage := store,
    timeRange := .range30Min,
    focusedPanel := 0 }

/-- Dashboard states reachable from the initial model by processing any
sequence of messages. -/
inductive Reachable : Model → Prop where
  | init (store : Option (List StatsEntry)) : Reachable (NewModel store)
  | step {m : Model} (msg : Msg) (now : Nat) :
      Reachable m → Reachable (update m msg now).1

/-- Outcome oracle for the database/sql calls made by one batchWrite
transaction: whether Begin, Prepare and Commit succeed, and which
individual INSERT executions succeed. -/
structure TxOutcome where
  beginOk : Bool
  prepareOk : Bool
  commitOk : Bool
  insertOk : StatsEntry → Bool

/-- Go storage.Storage.batchWrite (internal/storage): one transaction per
batch. A failed Begin or Prepare leaves the table untouched (the deferred
Rollback undoes nothing); a failed individual INSERT is skipped with
continue while the remaining entries stay in the transaction; Commit makes
the surviving inserts durable, and a failed Commit rolls everything back.
The durable table is modelled as the list of persisted rows in insertion
order. -/
def batchWrite (db : List StatsEntry) (tx : TxOutcome) (entries : List StatsEntry) :
    List StatsEntry :=
  if !tx.beginOk then db
  else if !tx.prepareOk then db
  else if tx.commitOk then db ++ entries.filter tx.insertOk
  else db

/-- WHERE clause of both Query statements: rows of the requested container
that are strictly newer than the cutoff timestamp. -/
def statsRowMatches (containerID : String) (cutoff : Int) (e : StatsEntry) : Bool :=
  e.containerID == containerID && decide (cutoff < (e.timestamp : Int))

/-- Rows selected by Query for a container and time range: the cutoff is
now minus the lookback duration of the range, in Unix seconds. -/
def queryRows (db : List StatsEntry) (containerID : String) (now : Nat)
    (timeRange : TimeRange) : List StatsEntry :=
  db.filter (statsRowMatches containerID ((now : Int) - timeRange.durationSec))

/-- Ordering of persisted rows by timestamp, used to model ORDER BY
timestamp ASC. -/
def tsLE (a b : StatsEntry) : Prop := a.timestamp ≤ b.timestamp

instance : DecidableRel tsLE := fun a b => Nat.decLe a.timestamp b.timestamp

instance : IsTotal StatsEntry tsLE := ⟨fun a b => Nat.le_total a.timestamp b.timestamp⟩

instance : IsTrans StatsEntry tsLE := ⟨fun _ _ _ h h2 => Nat.le_trans h h2⟩

/-- Projection of a persisted row onto the three columns read by Query. -/
def toDataPoint (e : StatsEntry) : DataPoint :=
  { timestamp := e.timestamp, cpuPercent := e.cpuPercent,
    memoryPercent := e.memoryPercent }

/-- SQLite bucket expression (timestamp / bs) * bs; integer division on the
non-negative Unix timestamps is the floor. -/
def bucketOf (bs ts : Nat) : Nat := ts / bs * bs

/-- AVG over a list of rationals, modelling the SQL AVG aggregate. -/
def listAvg (l : List ℚ) : ℚ := l.sum / l.length

/-- Aggregated branch of Go storage.Storage.Query: GROUP BY the bucket
expression with AVG over cpu and memory, ORDER BY bucket ASC; one output
row per distinct bucket value among the selected rows. -/
def aggQuery (rows : List StatsEntry) (bs : Nat) : List DataPoint :=
  let buckets := ((rows.map (fun e => bucketOf bs e.timestamp)).dedup).insertionSort (· ≤ ·)
  buckets.map (fun b =>
    { timestamp := b,
      cpuPercent :=
        listAvg ((rows.filter (fun e => bucketOf bs e.timestamp == b)).map StatsEntry.cpuPercent),
      memoryPercent :=
        listAvg ((rows.filter (fun e => bucketOf bs e.timestamp == b)).map StatsEntry.memoryPercent) })

/-- Go storage.Storage.Query (internal/storage): raw rows ordered by
timestamp for the finest range, bucketed averages for the coarser ranges.
Database read errors are outside this pure model, so the error result of
the Go function is absent; the no-data case is the empty list. -/
def Query (db : List StatsEntry) (containerID : String) (now : Nat)
    (timeRange : TimeRange) : List DataPoint :=
  let rows := queryRows db containerID now timeRange
  match timeRange with
  | .range30Min => (rows.insertionSort tsLE).map toDataPoint
  | _ => aggQuery rows timeRange.bucketSize

/-- Width of the uint64 wrap used by the Go stats arithmetic. -/
def W64 : Nat := 2 ^ 64

/-- Go uint64 subtraction a - b with wrap-around. -/
def u64sub (a b : Nat) : Nat := (a % W64 + (W64 - b % W64)) % W64

/-- Docker CPUUsage fields read by the stats parser. -/
structure CPUUsageJSON where
  totalUsage : Nat
  percpuUsage : List Nat
deriving DecidableEq, Repr

/-- Docker CPUStats fields read by the stats parser. -/
structure CPUStatsJSON where
  cpuUsage : CPUUsageJSON
  systemUsage : Nat
deriving DecidableEq, Repr

/-- Docker MemoryStats fields read by the stats parser; cacheValue models
the lookup Stats["cache"], zero when the key is absent. -/
structure MemoryStatsJSON where
  usage : Nat
  limit : Nat
  cacheValue : Nat
deriving DecidableEq, Repr

/-- Docker per-interface network counters read by the stats parser. -/
structure NetworkJSON where
  rxBytes : Nat
  txBytes : Nat
  rxPackets : Nat
  txPackets : Nat
  rxErrors : Nat
  txErrors : Nat
  rxDropped : Nat
  txDropped : Nat
deriving DecidableEq, Repr

/-- Docker blkio IoServiceBytesRecursive entry read by the stats parser. -/
structure BlkioEntryJSON where
  op : String
  value : Nat
deriving DecidableEq, Repr

/-- Docker types.StatsJSON, restricted to the fields the parser reads; the
read field is the capture timestamp. -/
structure StatsJSON where
  read : Nat
  cpuStats : CPUStatsJSON
  preCPUStats : CPUStatsJSON
  memoryStats : MemoryStatsJSON
  networks : List NetworkJSON
  ioServiceBytesRecursive : List BlkioEntryJSON
  pidsCurrent : Nat
deriving DecidableEq, Repr

/-- Go docker.calculateCPUPercent (internal/docker/stats.go): the uint64
deltas are wrap-around differences converted to float64 (here exact
rationals); the division is taken only when both deltas are strictly
positive, otherwise the result is 0.0. -/
def calculateCPUPercent (s : StatsJSON) : ℚ :=
  let cpuDelta : ℚ := (u64sub s.cpuStats.cpuUsage.totalUsage s.preCPUStats.cpuUsage.totalUsage : Nat)
  let systemDelta : ℚ := (u64sub s.cpuStats.systemUsage s.preCPUStats.systemUsage : Nat)
  if 0 < systemDelta ∧ 0 < cpuDelta then
    cpuDelta / systemDelta * (s.cpuStats.cpuUsage.percpuUsage.length : ℚ) * 100
  else 0

/-- Go docker.parseStats (internal/docker/stats.go): memory percent is
computed only under the limit > 0 guard; counters are uint64 sums, written
here as a sum followed by one wrap, which equals the chained wrapped
additions. The Processes field is attached later by the streaming loop and
is empty here. -/
def parseStats (s : StatsJSON) : Stats :=
  let cpuPercent := calculateCPUPercent s
  let memUsage := s.memoryStats.usage
  let memLimit := s.memoryStats.limit
  let memPercent : ℚ := if 0 < memLimit then (memUsage : ℚ) / (memLimit : ℚ) * 100 else 0
  { cpuPercent := cpuPercent,
    memoryUsage := memUsage,
    memoryLimit := memLimit,
    memoryPercent := memPercent,
    memoryCache := s.memoryStats.cacheValue,
    networkRx := (s.networks.map NetworkJSON.rxBytes).sum % W64,
    networkTx := (s.networks.map NetworkJSON.txBytes).sum % W64,
    networkRxPackets := (s.networks.map NetworkJSON.rxPackets).sum % W64,
    networkTxPackets := (s.networks.map NetworkJSON.txPackets).sum % W64,
    networkRxErrors := (s.networks.map NetworkJSON.rxErrors).sum % W64,
    networkTxErrors := (s.networks.map NetworkJSON.txErrors).sum % W64,
    networkRxDropped := (s.networks.map NetworkJSON.rxDropped).sum % W64,
    networkTxDropped := (s.networks.map NetworkJSON.txDropped).sum % W64,
    blockRead := (((s.ioServiceBytesRecursive.filter (fun b => b.op == "Read")).map BlkioEntryJSON.value).sum) % W64,
    blockWrite := (((s.ioServiceBytesRecursive.filter (fun b => b.op == "Write")).map BlkioEntryJSON.value).sum) % W64,
    pids := s.pidsCurrent,
    timestamp := s.read,
    processes := [] }

/-- Go tui.truncate (internal/tui/helpers.go), on byte strings modelled as
character lists. The result is none exactly when the Go slice expression
s[:max-3] would panic, which happens when len(s) > max and max - 3 is
negative; in the remaining long-string case max - 3 < len(s) holds, so the
upper slice bound is always in range. -/
def truncate (s : List Char) (max : Int) : Option (List Char) :=
  if (s.length : Int) ≤ max then some s
  else if max - 3 < 0 then none
  else some (s.take (max - 3).toNat ++ [Char.ofNat 46, Char.ofNat 46, Char.ofNat 46])

/-- Concrete container in the exited state, for concrete executions. -/
def contExited : Container :=
  { id := "a", name := "web", image := "nginx", status := "Exited (0)",
    state := "exited", created := 0, ports := [], displayStatus := "exited" }

/-- The same container after it was started externally. -/
def contRunning : Container :=
  { contExited with state := "running", status := "Up 2 seconds" }

/-- State after the initial model processed an error-free list refresh
showing the exited container: it is selected but no stream is open. -/
def flipBase : Model :=
  (update (NewModel (some [])) (Msg.containersMsg [contExited] none) 0).1

/-- Result of the next error-free list refresh, in which the selected
container has flipped to running while the selection stayed put. -/
def flipResult : Model × List Cmd :=
  update flipBase (Msg.containersMsg [contRunning] none) 0

/-- Concrete dashboard state with an active stats stream, used to exercise
the stats stream-error transition. -/
def streamErrModel : Model :=
  { NewModel (some []) with
    statsCancel := true, statsChanOpen := true, statsErrChanOpen := true,
    containers := [contRunning], currentContainerID := "a" }

/-- Concrete persisted row, for concrete executions of the storage layer. -/
def demoEntry : StatsEntry :=
  { containerID := "a", timestamp := 100, cpuPercent := 10, memoryPercent := 20,
    memoryUsage := 0, memoryLimit := 0, networkRx := 0, networkTx := 0,
    blockRead := 0, blockWrite := 0, pids := 0 }

/-- Second concrete row of the same container, 10 seconds later. -/
def demoEntry2 : StatsEntry := { demoEntry with timestamp := 110, cpuPercent := 30 }

/-- Row whose INSERT the failure oracle rejects. -/
def demoBadEntry : StatsEntry := { demoEntry with containerID := "bad" }

/-- Transaction outcome in which Begin, Prepare and Commit all succeed but
the INSERT of demoBadEntry fails. -/
def demoTx : TxOutcome :=
  { beginOk := true, prepareOk := true, commitOk := true,
    insertOk := fun e => e.containerID != "bad" }

/-- Concrete stats sample, for concrete executions of the state machine. -/
def demoStats : Stats :=
  { cpuPercent := 45, memoryUsage := 512, memoryLimit := 1024, memoryPercent := 50,
    memoryCache := 0, networkRx := 0, networkTx := 0, networkRxPackets := 0,
    networkTxPackets := 0, networkRxErrors := 0, networkTxErrors := 0,
    networkRxDropped := 0, networkTxDropped := 0, blockRead := 0, blockWrite := 0,
    pids := 3, timestamp := 0, processes := [] }

/-- Concrete log entry with a non-empty message. -/
def demoLogEntry : LogEntry :=
  { timestamp := 0, message := "started", stream := "stdout" }

/-- Concrete log entry with an empty message. -/
def emptyLogEntry : LogEntry :=
  { timestamp := 0, message := "", stream := "stdout" }

/-- Dashboard state in which the (stopped, hence stream-less) container is
selected and then reported as running: the flip scenario of rule 4. -/
def flipRunningModel : Model :=
  { NewModel (some []) with containers := [contRunning], currentContainerID := "a" }

/-- Transaction outcome whose Begin fails. -/
def txBeginFail : TxOutcome :=
  { beginOk := false, prepareOk := true, commitOk := true, insertOk := fun _ => true }

/-- Transaction outcome in which everything succeeds. -/
def txAllOk : TxOutcome :=
  { beginOk := true, prepareOk := true, commitOk := true, insertOk := fun _ => true }

/-- Concrete six-character string (abcdef) as a char list. -/
def demoChars : List Char :=
  [Char.ofNat 97, Char.ofNat 98, Char.ofNat 99, Char.ofNat 100, Char.ofNat 101, Char.ofNat 102]

/-- Concrete Docker stats payload with a zero memory limit and zero CPU
deltas. -/
def demoStatsJSON : StatsJSON :=
  { read := 0,
    cpuStats := { cpuUsage := { totalUsage := 7, percpuUsage := [1, 2] }, systemUsage := 9 },
    preCPUStats := { cpuUsage := { totalUsage := 7, percpuUsage := [] }, systemUsage := 4 },
    memoryStats := { usage := 512, limit := 0, cacheValue := 0 },
    networks := [], ioServiceBytesRecursive := [], pidsCurrent := 3 }

/-- State-machine invariant maintained by every transition: the cursor is
non-negative and in bounds whenever the list is non-empty, the log buffer
holds at most 1000 entries, and both rolling-history arrays have exactly
maxDataPoints = 150 elements. -/
def Inv (m : Model) : Prop :=
  0 ≤ m.cursor ∧
  (m.containers.length ≠ 0 → m.cursor < (m.containers.length : Int)) ∧
  m.logs.length ≤ 1000 ∧
  m.cpuHistory.length = m.maxDataPoints ∧
  m.memoryHistory.length = m.maxDataPoints ∧
  m.maxDataPoints = 150

lemma statsBlock_preserves (m : Model) (c : Container) (b : Bool) :
    (statsBlock m c b).1.containers = m.containers ∧
    (statsBlock m c b).1.cursor = m.cursor ∧
    (statsBlock m c b).1.logs = m.logs ∧
    (statsBlock m c b).1.cpuHistory = m.cpuHistory ∧
    (statsBlock m c b).1.memoryHistory = m.memoryHistory ∧
    (statsBlock m c b).1.maxDataPoints = m.maxDataPoints := by
  unfold statsBlock
  split_ifs <;> exact ⟨rfl, rfl, rfl, rfl, rfl, rfl⟩

lemma logsBlock_preserves (m : Model) (c : Container) (b : Bool) :
    (logsBlock m c b).1.containers = m.containers ∧
    (logsBlock m c b).1.cursor = m.cursor ∧
    (logsBlock m c b).1.maxDataPoints = m.maxDataPoints ∧
    ((logsBlock m c b).1.logs = m.logs ∨ (logsBlock m c b).1.logs = []) ∧
    ((logsBlock m c b).1.cpuHistory = m.cpuHistory ∨
      (logsBlock m c b).1.cpuHistory = List.replicate m.maxDataPoints 0) ∧
    ((logsBlock m c b).1.memoryHistory = m.memoryHistory ∨
      (logsBlock m c b).1.memoryHistory = List.replicate m.maxDataPoints 0) := by
  unfold logsBlock
  split_ifs <;> simp

lemma uSALFC_preserves (m : Model) :
    (updateStatsAndLogsForCursor m).1.containers = m.containers ∧
    (updateStatsAndLogsForCursor m).1.cursor = m.cursor ∧
    (updateStatsAndLogsForCursor m).1.maxDataPoints = m.maxDataPoints ∧
    ((updateStatsAndLogsForCursor m).1.logs = m.logs ∨
      (updateStatsAndLogsForCursor m).1.logs = []) ∧
    ((updateStatsAndLogsForCursor m).1.cpuHistory = m.cpuHistory ∨
      (updateStatsAndLogsForCursor m).1.cpuHistory = List.replicate m.maxDataPoints 0) ∧
    ((updateStatsAndLogsForCursor m).1.memoryHistory = m.memoryHistory ∨
      (updateStatsAndLogsForCursor m).1.memoryHistory = List.replicate m.maxDataPoints 0) := by
  unfold updateStatsAndLogsForCursor
  split_ifs
  · exact ⟨rfl, rfl, rfl, Or.inl rfl, Or.inl rfl, Or.inl rfl⟩
  · dsimp only
    obtain ⟨s1, s2, s3, s4, s5, s6⟩ := statsBlock_preserves m
      (m.containers.getD m.cursor.toNat defaultContainer)
      (m.currentContainerID != (m.containers.getD m.cursor.toNat defaultContainer).id)
    obtain ⟨l1, l2, l3, l4, l5, l6⟩ := logsBlock_preserves
      (statsBlock m (m.containers.getD m.cursor.toNat defaultContainer)
        (m.currentContainerID != (m.containers.getD m.cursor.toNat defaultContainer).id)).1
      (m.containers.getD m.cursor.toNat defaultContainer)
      (m.currentContainerID != (m.containers.getD m.cursor.toNat defaultContainer).id)
    refine ⟨l1.trans s1, l2.trans s2, l3.trans s6, ?_, ?_, ?_⟩
    · rcases l4 with h | h
      · exact Or.inl (h.trans s3)
      · exact Or.inr h
    · rcases l5 with h | h
      · exact Or.inl (h.trans s4)
      · rw [s6] at h
        exact Or.inr h
    · rcases l6 with h | h
      · exact Or.inl (h.trans s5)
      · rw [s6] at h
        exact Or.inr h

lemma inv_newModel (store : Option (List StatsEntry)) : Inv (NewModel store) := by
  simp [Inv, NewModel]

lemma inv_uSALFC (m : Model) (h : Inv m) : Inv (updateStatsAndLogsForCursor m).1 := by
  obtain ⟨h1, h2, h3, h4, h5, h6⟩ := h
  obtain ⟨p1, p2, p3, p4, p5, p6⟩ := uSALFC_preserves m
  refine ⟨?_, ?_, ?_, ?_, ?_, ?_⟩
  · rw [p2]; exact h1
  · rw [p1, p2]; exact h2
  · rcases p4 with h | h <;> rw [h] <;> simp [h3]
  · rcases p5 with h | h <;> rw [h, p3] <;> simp [h4]
  · rcases p6 with h | h <;> rw [h, p3] <;> simp [h5]
  · rw [p3]; exact h6

lemma inv_fields (m2 : Model) (hc : 0 ≤ m2.cursor)
    (hb : m2.containers.length ≠ 0 → m2.cursor < (m2.containers.length : Int))
    (hl : m2.logs.length ≤ 1000)
    (hcp : m2.cpuHistory.length = m2.maxDataPoints)
    (hmm : m2.memoryHistory.length = m2.maxDataPoints)
    (hmx : m2.maxDataPoints = 150) : Inv m2 :=
  ⟨hc, hb, hl, hcp, hmm, hmx⟩

lemma inv_cursorSet (m : Model) (c : Int) (h : Inv m) (hc0 : 0 ≤ c)
    (hcl : m.containers.length ≠ 0 → c < (m.containers.length : Int)) :
    Inv { m with cursor := c } := by
  obtain ⟨h1, h2, h3, h4, h5, h6⟩ := h
  exact ⟨hc0, hcl, h3, h4, h5, h6⟩

lemma inv_keyUp (m : Model) (h : Inv m) : Inv (keyUp m).1 := by
  obtain ⟨h1, h2, h3, h4, h5, h6⟩ := h
  unfold keyUp
  split_ifs with hcur
  · exact inv_uSALFC _ (inv_cursorSet m _ ⟨h1, h2, h3, h4, h5, h6⟩ (by omega)
      (fun hne => by have := h2 hne; omega))
  · exact ⟨h1, h2, h3, h4, h5, h6⟩

lemma inv_keyDown (m : Model) (h : Inv m) : Inv (keyDown m).1 := by
  obtain ⟨h1, h2, h3, h4, h5, h6⟩ := h
  unfold keyDown
  split_ifs with hcur
  · exact inv_uSALFC _ (inv_cursorSet m _ ⟨h1, h2, h3, h4, h5, h6⟩ (by omega)
      (fun hne => by omega))
  · exact ⟨h1, h2, h3, h4, h5, h6⟩

lemma inv_keyPgUp (m : Model) (h : Inv m) : Inv (keyPgUp m).1 := by
  obtain ⟨h1, h2, h3, h4, h5, h6⟩ := h
  unfold keyPgUp
  split_ifs <;> exact ⟨h1, h2, h3, h4, h5, h6⟩

lemma inv_keyPgDown (m : Model) (h : Inv m) : Inv (keyPgDown m).1 := by
  obtain ⟨h1, h2, h3, h4, h5, h6⟩ := h
  unfold keyPgDown
  dsimp only
  split_ifs <;> exact ⟨h1, h2, h3, h4, h5, h6⟩

lemma inv_keyStart (m : Model) (h : Inv m) : Inv (keyStart m).1 := by
  obtain ⟨h1, h2, h3, h4, h5, h6⟩ := h
  unfold keyStart
  split_ifs <;> exact ⟨h1, h2, h3, h4, h5, h6⟩

lemma inv_keyStop (m : Model) (h : Inv m) : Inv (keyStop m).1 := by
  obtain ⟨h1, h2, h3, h4, h5, h6⟩ := h
  unfold keyStop
  split_ifs <;> exact ⟨h1, h2, h3, h4, h5, h6⟩

lemma inv_keyRestart (m : Model) (h : Inv m) : Inv (keyRestart m).1 := by
  obtain ⟨h1, h2, h3, h4, h5, h6⟩ := h
  unfold keyRestart
  split_ifs <;> exact ⟨h1, h2, h3, h4, h5, h6⟩

lemma inv_updateKey (m : Model) (k : String) (h : Inv m) : Inv (updateKey m k).1 := by
  obtain ⟨h1, h2, h3, h4, h5, h6⟩ := h
  unfold updateKey
  by_cases c1 : k = "ctrl+c" ∨ k = "q"
  · rw [if_pos c1]; exact ⟨h1, h2, h3, h4, h5, h6⟩
  rw [if_neg c1]
  by_cases c2 : k = "up" ∨ k = "k"
  · rw [if_pos c2]; exact inv_keyUp m ⟨h1, h2, h3, h4, h5, h6⟩
  rw [if_neg c2]
  by_cases c3 : k = "down" ∨ k = "j"
  · rw [if_pos c3]; exact inv_keyDown m ⟨h1, h2, h3, h4, h5, h6⟩
  rw [if_neg c3]
  by_cases c4 : k = "pgup"
  · rw [if_pos c4]; exact inv_keyPgUp m ⟨h1, h2, h3, h4, h5, h6⟩
  rw [if_neg c4]
  by_cases c5 : k = "pgdown"
  · rw [if_pos c5]; exact inv_keyPgDown m ⟨h1, h2, h3, h4, h5, h6⟩
  rw [if_neg c5]
  by_cases c6 : k = "home"
  · rw [if_pos c6]; exact ⟨h1, h2, h3, h4, h5, h6⟩
  rw [if_neg c6]
  by_cases c7 : k = "end"
  · rw [if_pos c7]; exact ⟨h1, h2, h3, h4, h5, h6⟩
  rw [if_neg c7]
  by_cases c8 : k = "a"
  · rw [if_pos c8]; exact ⟨h1, h2, h3, h4, h5, h6⟩
  rw [if_neg c8]
  by_cases c9 : k = "c"
  · rw [if_pos c9]; exact ⟨h1, h2, Nat.zero_le 1000, h4, h5, h6⟩
  rw [if_neg c9]
  by_cases c10 : k = "s"
  · rw [if_pos c10]; exact inv_keyStart m ⟨h1, h2, h3, h4, h5, h6⟩
  rw [if_neg c10]
  by_cases c11 : k = "x"
  · rw [if_pos c11]; exact inv_keyStop m ⟨h1, h2, h3, h4, h5, h6⟩
  rw [if_neg c11]
  by_cases c12 : k = "r"
  · rw [if_pos c12]; exact inv_keyRestart m ⟨h1, h2, h3, h4, h5, h6⟩
  rw [if_neg c12]
  by_cases c13 : k = "R"
  · rw [if_pos c13]; exact ⟨h1, h2, h3, h4, h5, h6⟩
  rw [if_neg c13]
  by_cases c14 : k = "1"
  · rw [if_pos c14]; exact ⟨h1, h2, h3, h4, h5, h6⟩
  rw [if_neg c14]
  by_cases c15 : k = "2"
  · rw [if_pos c15]; exact ⟨h1, h2, h3, h4, h5, h6⟩
  rw [if_neg c15]
  by_cases c16 : k = "3"
  · rw [if_pos c16]; exact ⟨h1, h2, h3, h4, h5, h6⟩
  rw [if_neg c16]
  by_cases c17 : k = "4"
  · rw [if_pos c17]; exact ⟨h1, h2, h3, h4, h5, h6⟩
  rw [if_neg c17]
  by_cases c18 : k = "5"
  · rw [if_pos c18]; exact ⟨h1, h2, h3, h4, h5, h6⟩
  rw [if_neg c18]
  by_cases c19 : k = "tab"
  · rw [if_pos c19]; exact ⟨h1, h2, h3, h4, h5, h6⟩
  rw [if_neg c19]
  by_cases c20 : k = "shift+tab"
  · rw [if_pos c20]; exact ⟨h1, h2, h3, h4, h5, h6⟩
  rw [if_neg c20]
  exact ⟨h1, h2, h3, h4, h5, h6⟩

lemma inv_updateContainersMsg (m : Model) (cs : List Container) (err : Option String)
    (h : Inv m) : Inv (updateContainersMsg m cs err).1 := by
  obtain ⟨h1, h2, h3, h4, h5, h6⟩ := h
  unfold updateContainersMsg
  cases err with
  | some e => exact ⟨h1, h2, h3, h4, h5, h6⟩
  | none =>
    dsimp only
    split_ifs with hch hcl hcl
    · apply inv_uSALFC
      apply inv_fields <;> dsimp only
      · omega
      · intro _
        omega
      · exact h3
      · exact h4
      · exact h5
      · exact h6
    · apply inv_uSALFC
      apply inv_fields <;> dsimp only
      · exact h1
      · intro hne
        rw [not_and_or] at hcl
        rcases hcl with hx | hx <;> omega
      · exact h3
      · exact h4
      · exact h5
      · exact h6
    · apply inv_fields <;> dsimp only
      · omega
      · intro _
        omega
      · exact h3
      · exact h4
      · exact h5
      · exact h6
    · apply inv_fields <;> dsimp only
      · exact h1
      · intro hne
        rw [not_and_or] at hcl
        rcases hcl with hx | hx <;> omega
      · exact h3
      · exact h4
      · exact h5
      · exact h6

lemma inv_updateStatsMsg (m : Model) (s : Option Stats) (err : Option String)
    (now : Nat) (h : Inv m) : Inv (updateStatsMsg m s err now).1 := by
  obtain ⟨h1, h2, h3, h4, h5, h6⟩ := h
  unfold updateStatsMsg
  cases err with
  | some e => exact ⟨h1, h2, h3, h4, h5, h6⟩
  | none =>
    cases s with
    | none => exact ⟨h1, h2, h3, h4, h5, h6⟩
    | some st =>
      dsimp only
      cases hq : m.storage with
      | none =>
        dsimp only
        split_ifs <;> apply inv_fields <;> dsimp only <;>
          first
            | exact h1
            | exact h2
            | exact h3
            | exact h6
            | (simp
               omega)
      | some q =>
        dsimp only
        split_ifs <;> apply inv_fields <;> dsimp only <;>
          first
            | exact h1
            | exact h2
            | exact h3
            | exact h6
            | (simp
               omega)

set_option maxRecDepth 8000 in
lemma inv_updateLogsMsg (m : Model) (e : LogEntry) (err : Option String)
    (h : Inv m) : Inv (updateLogsMsg m e err).1 := by
  obtain ⟨h1, h2, h3, h4, h5, h6⟩ := h
  unfold updateLogsMsg
  cases err with
  | some e2 => exact ⟨h1, h2, h3, h4, h5, h6⟩
  | none =>
    dsimp only
    repeat
      any_goals split
    all_goals apply inv_fields
    all_goals dsimp only
    all_goals
      first
        | exact h1
        | exact h2
        | exact h3
        | exact h4
        | exact h5
        | exact h6
        | (simp_all
           omega)
        | (simp_all)

lemma inv_step (m : Model) (msg : Msg) (now : Nat) (h : Inv m) :
    Inv (update m msg now).1 := by
  obtain ⟨h1, h2, h3, h4, h5, h6⟩ := h
  cases msg with
  | windowSize w ht => exact ⟨h1, h2, h3, h4, h5, h6⟩
  | key k => exact inv_updateKey m k ⟨h1, h2, h3, h4, h5, h6⟩
  | tick => exact ⟨h1, h2, h3, h4, h5, h6⟩
  | containersMsg cs err => exact inv_updateContainersMsg m cs err ⟨h1, h2, h3, h4, h5, h6⟩
  | actionMsg s err =>
    cases err with
    | some e => exact ⟨h1, h2, h3, h4, h5, h6⟩
    | none => exact ⟨h1, h2, h3, h4, h5, h6⟩
  | statsMsg s err => exact inv_updateStatsMsg m s err now ⟨h1, h2, h3, h4, h5, h6⟩
  | logsMsg e err => exact inv_updateLogsMsg m e err ⟨h1, h2, h3, h4, h5, h6⟩

lemma reachable_inv (m : Model) (h : Reachable m) : Inv m := by
  induction h with
  | init store => exact inv_newModel store
  | step msg now _ ih => exact inv_step _ msg now ih

/-- C7: Write never blocks and has no synchronously observable effect:
with free space in the bounded queue (capacity 1000) the entry is
enqueued, with a full queue it is dropped silently with no error and no
other state change; the queue never grows past its capacity. -/
theorem write_enqueue_or_silent_drop (q : List StatsEntry) (e : StatsEntry) :
    (q.length < 1000 → storageWrite q e = q ++ [e]) ∧
    (1000 ≤ q.length → storageWrite q e = q) ∧
    (q.length ≤ 1000 → (storageWrite q e).length ≤ 1000) := by
  unfold storageWrite
  refine ⟨fun h => if_pos h, fun h => if_neg (by omega), fun h => ?_⟩
  split_ifs with h2
  · simp
    omega
  · exact h

set_option maxRecDepth 10000 in
/-- Witness for C7 at a concrete empty and a concrete full queue. -/
theorem write_enqueue_or_silent_drop_witness :
    storageWrite [] demoEntry = [demoEntry] ∧
    storageWrite (List.replicate 1000 demoEntry) demoEntry = List.replicate 1000 demoEntry :=
  ⟨(write_enqueue_or_silent_drop [] demoEntry).1 (by simp),
   (write_enqueue_or_silent_drop (List.replicate 1000 demoEntry) demoEntry).2.1 (by simp)⟩

/-- C9: stats parsing is total with guarded divisions: a zero memory limit
yields memory percent 0 without taking the division, a positive limit
yields usage/limit*100, and a zero CPU or system delta (the wrap-around
uint64 differences are never negative, so not strictly positive means
zero) yields CPU percent 0.0. -/
theorem parseStats_division_guards (s : StatsJSON) :
    (s.memoryStats.limit = 0 → (parseStats s).memoryPercent = 0) ∧
    (0 < s.memoryStats.limit →
      (parseStats s).memoryPercent =
        (s.memoryStats.usage : ℚ) / (s.memoryStats.limit : ℚ) * 100) ∧
    (u64sub s.cpuStats.cpuUsage.totalUsage s.preCPUStats.cpuUsage.totalUsage = 0 ∨
      u64sub s.cpuStats.systemUsage s.preCPUStats.systemUsage = 0 →
      calculateCPUPercent s = 0) ∧
    (parseStats s).cpuPercent = calculateCPUPercent s := by
  refine ⟨?_, ?_, ?_, rfl⟩
  · intro h
    simp only [parseStats]
    rw [if_neg (by omega)]
  · intro h
    simp only [parseStats]
    rw [if_pos h]
  · intro h
    unfold calculateCPUPercent
    dsimp only
    rw [if_neg]
    rintro ⟨hs, hc⟩
    rcases h with h | h
    · rw [h] at hc
      simp at hc
    · rw [h] at hs
      simp at hs

/-- Witness for C9 at a concrete sample with zero limit and zero deltas. -/
theorem parseStats_division_guards_witness :
    (parseStats demoStatsJSON).memoryPercent = 0 ∧ calculateCPUPercent demoStatsJSON = 0 :=
  ⟨(parseStats_division_guards demoStatsJSON).1 rfl,
   (parseStats_division_guards demoStatsJSON).2.2.1 (Or.inl (by decide))⟩

/-- C10 counterexample: at the non-negative width 0 and the four-character
string abcd, the Go slice s[:max-3] has a negative bound and truncate
panics (modelled as none) instead of returning a string of length 0. -/
theorem truncate_counterexample :
    (0 : Int) ≤ 0 ∧
    (0 : Int) <
      (([Char.ofNat 97, Char.ofNat 98, Char.ofNat 99, Char.ofNat 100] : List Char).length : Int) ∧
    truncate [Char.ofNat 97, Char.ofNat 98, Char.ofNat 99, Char.ofNat 100] 0 = none := by
  decide

/-- C10 amended: truncate returns s unchanged when len(s) <= max; when
len(s) > max it returns a string of length exactly max ending in three
dots provided max >= 3, and for 0 <= max < 3 the slice bound max-3 is
negative and truncate panics, so render callers passing tiny widths can
crash it. -/
theorem truncate_amended (s : List Char) (max : Int) :
    ((s.length : Int) ≤ max → truncate s max = some s) ∧
    (max < (s.length : Int) → 3 ≤ max →
      ∃ t, truncate s max = some t ∧ (t.length : Int) = max ∧
        [Char.ofNat 46, Char.ofNat 46, Char.ofNat 46] <:+ t) ∧
    (max < (s.length : Int) → max < 3 → truncate s max = none) := by
  unfold truncate
  refine ⟨fun h => if_pos h, ?_, ?_⟩
  · intro hlen h3
    rw [if_neg (by omega), if_neg (by omega)]
    refine ⟨_, rfl, ?_, ⟨s.take (max - 3).toNat, rfl⟩⟩
    simp [List.length_take]
    omega
  · intro hlen h3
    rw [if_neg (by omega), if_pos (by omega)]

/-- Witness for C10 amended at the six-character string and widths 5
and 2. -/
theorem truncate_amended_witness :
    (∃ t, truncate demoChars 5 = some t ∧ (t.length : Int) = 5 ∧
      [Char.ofNat 46, Char.ofNat 46, Char.ofNat 46] <:+ t) ∧
    truncate demoChars 2 = none :=
  ⟨(truncate_amended demoChars 5).2.1 (by decide) (by decide),
   (truncate_amended demoChars 2).2.2 (by decide) (by decide)⟩

/-- C6 counterexample: with Begin, Prepare and Commit all succeeding but
the INSERT of the first entry failing, the batch is partially committed:
the second entry is persisted while the first is lost, so the flush is
neither all nor nothing. -/
theorem batchWrite_counterexample :
    ¬ (batchWrite [] demoTx [demoBadEntry, demoEntry] = [demoBadEntry, demoEntry] ∨
       batchWrite [] demoTx [demoBadEntry, demoEntry] = []) := by
  decide

/-- C6 amended: a batch flush is transactional against Begin, Prepare and
Commit failures, in which case no entry of the batch is persisted; but an
individual INSERT error is skipped with continue while the rest of the
batch still commits, so exactly the entries whose insert succeeds are
persisted and a batch with one failing insert is partially committed.
When every insert succeeds the flush is all-or-nothing as the spec
states. -/
theorem batchWrite_amended (db : List StatsEntry) (tx : TxOutcome)
    (entries : List StatsEntry) :
    (tx.beginOk = false ∨ tx.prepareOk = false ∨ tx.commitOk = false →
      batchWrite db tx entries = db) ∧
    (tx.beginOk = true → tx.prepareOk = true → tx.commitOk = true →
      batchWrite db tx entries = db ++ entries.filter tx.insertOk) ∧
    ((∀ e ∈ entries, tx.insertOk e = true) →
      batchWrite db tx entries = db ∨ batchWrite db tx entries = db ++ entries) := by
  obtain ⟨b, p, c, io⟩ := tx
  unfold batchWrite
  dsimp only
  refine ⟨?_, ?_, ?_⟩
  · rintro (h | h | h) <;> rw [h] <;> cases b <;> cases p <;> simp
  · intro hb hp hc
    rw [hb, hp, hc]
    simp
  · intro hall
    cases b
    · simp
    · cases p
      · simp
      · cases c
        · simp
        · right
          rw [List.filter_eq_self.mpr hall]
          simp

/-- Witness for C6 amended: a failed Begin persists nothing, and an
all-inserts-succeed batch is committed whole. -/
theorem batchWrite_amended_witness :
    batchWrite [demoEntry] txBeginFail [demoEntry2] = [demoEntry] ∧
    (batchWrite [] txAllOk [demoEntry, demoEntry2] = [] ∨
      batchWrite [] txAllOk [demoEntry, demoEntry2] = [demoEntry, demoEntry2]) :=
  ⟨(batchWrite_amended [demoEntry] txBeginFail [demoEntry2]).1 (Or.inl rfl),
   (batchWrite_amended [] txAllOk [demoEntry, demoEntry2]).2.2 (by simp [txAllOk])⟩

/-- C3 counterexample: in a concrete state with an active stats stream,
processing a stats-stream error message neither drops the cancel handle
nor stops waiting on the stream channels: statsCancel stays set and
another waitForStats command is scheduled. -/
theorem stream_error_counterexample :
    ¬ ((update streamErrModel (Msg.statsMsg none (some "boom")) 0).1.statsCancel = false ∧
       Cmd.waitForStats ∉ (update streamErrModel (Msg.statsMsg none (some "boom")) 0).2) := by
  decide

/-- C3 amended: a stats or log stream error is surfaced as the status
message (Stats error: / Logs error: followed by the error text) and
nothing else in the state changes: the cancel handle is kept, not
dropped, and the state machine schedules exactly one more wait on the
same stream channels. The producing goroutine has terminated after
sending the error, so that wait yields no further items, and the stream
is re-opened only by updateStatsAndLogsForCursor on a later refresh. -/
theorem stream_error_amended (m : Model) (st : Option Stats) (entry : LogEntry)
    (e : String) (now : Nat) :
    (update m (Msg.statsMsg st (some e)) now).1 = { m with message := "Stats error: " ++ e } ∧
    (update m (Msg.statsMsg st (some e)) now).2 = [Cmd.waitForStats] ∧
    (update m (Msg.logsMsg entry (some e)) now).1 = { m with message := "Logs error: " ++ e } ∧
    (update m (Msg.logsMsg entry (some e)) now).2 = [Cmd.waitForLogs] :=
  ⟨rfl, rfl, rfl, rfl⟩

/-- C1: in every reachable dashboard state, and again after processing any
further message (error-free resource-list refreshes and up/down
navigation included), the selection cursor satisfies
0 <= cursor <= len(containers) - 1 whenever the container list is
non-empty, and never goes negative. -/
theorem cursor_in_bounds (m : Model) (h : Reachable m) (msg : Msg) (now : Nat) :
    (0 ≤ m.cursor ∧
      (m.containers ≠ [] → m.cursor ≤ (m.containers.length : Int) - 1)) ∧
    (0 ≤ (update m msg now).1.cursor ∧
      ((update m msg now).1.containers ≠ [] →
        (update m msg now).1.cursor ≤ ((update m msg now).1.containers.length : Int) - 1)) := by
  obtain ⟨a1, a2, _⟩ := reachable_inv m h
  obtain ⟨b1, b2, _⟩ := reachable_inv _ (Reachable.step msg now h)
  refine ⟨⟨a1, fun hne => ?_⟩, b1, fun hne => ?_⟩
  · have := a2 (fun hlen => hne (List.length_eq_zero.mp hlen))
    omega
  · have := b2 (fun hlen => hne (List.length_eq_zero.mp hlen))
    omega

/-- Witness for C1: the initial model processing a singleton list refresh. -/
theorem cursor_in_bounds_witness :
    0 ≤ (update (NewModel (some [])) (Msg.containersMsg [contRunning] none) 0).1.cursor ∧
    (update (NewModel (some [])) (Msg.containersMsg [contRunning] none) 0).1.cursor ≤
      ((update (NewModel (some []))
        (Msg.containersMsg [contRunning] none) 0).1.containers.length : Int) - 1 :=
  ⟨(cursor_in_bounds (NewModel (some [])) (Reachable.init (some []))
      (Msg.containersMsg [contRunning] none) 0).2.1,
   (cursor_in_bounds (NewModel (some [])) (Reachable.init (some []))
      (Msg.containersMsg [contRunning] none) 0).2.2 (by decide)⟩

set_option maxRecDepth 8000 in
lemma updateLogsMsg_logs (m : Model) (e : LogEntry) (he : e.message ≠ "") :
    (updateLogsMsg m e none).1.logs =
      if 1000 < (m.logs ++ [e]).length then
        (m.logs ++ [e]).drop ((m.logs ++ [e]).length - 1000)
      else m.logs ++ [e] := by
  unfold updateLogsMsg
  dsimp only
  rw [if_pos he]
  dsimp only
  split_ifs <;> rfl

/-- C4: in every reachable state the log buffer holds at most 1000
entries; processing a log message with an empty entry leaves the buffer
unchanged, and a non-empty entry is appended with the oldest entries
evicted so that exactly the most recent 1000 remain whenever the bound
would be exceeded (expressed uniformly by dropping len+1-1000 from the
front, which is 0 while the buffer is below capacity). -/
theorem log_buffer_bounded (m : Model) (h : Reachable m) (e : LogEntry) (now : Nat) :
    m.logs.length ≤ 1000 ∧
    (e.message = "" → (update m (Msg.logsMsg e none) now).1.logs = m.logs) ∧
    (e.message ≠ "" →
      (update m (Msg.logsMsg e none) now).1.logs =
        (m.logs ++ [e]).drop (m.logs.length + 1 - 1000) ∧
      (update m (Msg.logsMsg e none) now).1.logs.length ≤ 1000) := by
  obtain ⟨_, _, h3, _⟩ := reachable_inv m h
  refine ⟨h3, ?_, ?_⟩
  · intro he
    show (updateLogsMsg m e none).1.logs = m.logs
    unfold updateLogsMsg
    dsimp only
    rw [if_neg (by simp [he])]
  · intro he
    have hlogs := updateLogsMsg_logs m e he
    have hlen : (m.logs ++ [e]).length = m.logs.length + 1 := by simp
    constructor
    · show (updateLogsMsg m e none).1.logs = _
      rw [hlogs]
      split_ifs with hl
      · rw [hlen]
      · have hz : m.logs.length + 1 - 1000 = 0 := by omega
        rw [hz, List.drop_zero]
    · show (updateLogsMsg m e none).1.logs.length ≤ 1000
      rw [hlogs]
      split_ifs with hl <;> simp <;> omega

/-- Witness for C4: the initial model accepting one non-empty entry and
discarding one empty entry. -/
theorem log_buffer_bounded_witness :
    (update (NewModel (some [])) (Msg.logsMsg demoLogEntry none) 0).1.logs =
      [demoLogEntry] ∧
    (update (NewModel (some [])) (Msg.logsMsg emptyLogEntry none) 0).1.logs = [] :=
  ⟨by
    have := ((log_buffer_bounded (NewModel (some [])) (Reachable.init (some []))
      demoLogEntry 0).2.2 (by decide)).1
    simpa using this,
   (log_buffer_bounded (NewModel (some [])) (Reachable.init (some []))
      emptyLogEntry 0).2.1 rfl⟩

set_option maxRecDepth 8000 in
lemma updateStatsMsg_hist (m : Model) (s : Stats) (now : Nat) :
    (updateStatsMsg m (some s) none now).1.cpuHistory =
      m.cpuHistory.drop 1 ++ [s.cpuPercent] ∧
    (updateStatsMsg m (some s) none now).1.memoryHistory =
      m.memoryHistory.drop 1 ++ [s.memoryPercent] := by
  unfold updateStatsMsg
  dsimp only
  cases hq : m.storage with
  | none =>
    dsimp only
    split_ifs <;> exact ⟨rfl, rfl⟩
  | some q =>
    dsimp only
    split_ifs <;> exact ⟨rfl, rfl⟩

/-- C5: both rolling-history arrays start as 150 zeros, keep fixed length
maxDataPoints = 150 in every reachable state, and every accepted
(error-free, non-nil) stats sample shifts each array left by one,
dropping the oldest element and placing the new CPU and memory values at
the last index. -/
theorem rolling_history_fixed (store : Option (List StatsEntry)) (m : Model)
    (h : Reachable m) (s : Stats) (now : Nat) :
    (NewModel store).cpuHistory = List.replicate 150 0 ∧
    (NewModel store).memoryHistory = List.replicate 150 0 ∧
    m.cpuHistory.length = 150 ∧ m.memoryHistory.length = 150 ∧
    (update m (Msg.statsMsg (some s) none) now).1.cpuHistory =
      m.cpuHistory.drop 1 ++ [s.cpuPercent] ∧
    (update m (Msg.statsMsg (some s) none) now).1.memoryHistory =
      m.memoryHistory.drop 1 ++ [s.memoryPercent] ∧
    (update m (Msg.statsMsg (some s) none) now).1.cpuHistory.length = 150 ∧
    (update m (Msg.statsMsg (some s) none) now).1.memoryHistory.length = 150 ∧
    (update m (Msg.statsMsg (some s) none) now).1.cpuHistory.getLast? = some s.cpuPercent ∧
    (update m (Msg.statsMsg (some s) none) now).1.memoryHistory.getLast? =
      some s.memoryPercent := by
  obtain ⟨_, _, _, h4, h5, h6⟩ := reachable_inv m h
  obtain ⟨hcpu, hmem⟩ := updateStatsMsg_hist m s now
  have hc : (update m (Msg.statsMsg (some s) none) now).1.cpuHistory =
      m.cpuHistory.drop 1 ++ [s.cpuPercent] := hcpu
  have hm : (update m (Msg.statsMsg (some s) none) now).1.memoryHistory =
      m.memoryHistory.drop 1 ++ [s.memoryPercent] := hmem
  refine ⟨rfl, rfl, by omega, by omega, hc, hm, ?_, ?_, ?_, ?_⟩
  · rw [hc]
    simp
    omega
  · rw [hm]
    simp
    omega
  · rw [hc, List.getLast?_append_cons]
    rfl
  · rw [hm, List.getLast?_append_cons]
    rfl

/-- Witness for C5: the initial model accepting a concrete sample. -/
theorem rolling_history_fixed_witness :
    (update (NewModel (some [])) (Msg.statsMsg (some demoStats) none) 0).1.cpuHistory.getLast? =
      some demoStats.cpuPercent ∧
    (update (NewModel (some [])) (Msg.statsMsg (some demoStats) none) 0).1.cpuHistory.length =
      150 :=
  ⟨(rolling_history_fixed (some []) (NewModel (some [])) (Reachable.init (some []))
      demoStats 0).2.2.2.2.2.2.2.2.1,
   (rolling_history_fixed (some []) (NewModel (some [])) (Reachable.init (some []))
      demoStats 0).2.2.2.2.2.2.1⟩

/-- C8 counterexample: starting from the initial model, a refresh shows the
selected container as exited, then a second refresh shows the same
container running (selection unchanged, running state flipped). The
lifecycle re-evaluation opens a new stats stream but, contrary to the
claim, opens no log stream: no log cancel handle is recorded and no
waitForLogs command is scheduled, because the logs section runs only when
the selected container id changed. -/
theorem lifecycle_flip_counterexample :
    flipBase.currentContainerID = contRunning.id ∧
    flipResult.1.statsCancel = true ∧
    ¬ (flipResult.1.logsCancel = true ∨ Cmd.waitForLogs ∈ flipResult.2) := by
  decide

/-- C8 amended: when the selection is unchanged and the selected resource
flips state, the re-evaluation handles only the stats stream: on a flip
to not-running it cancels the stats stream and clears the current stats
(the log stream is left untouched); on a flip to running with no live
stats handle it opens a new stats stream and records its handle, but does
not open a log stream; with a live stats handle it does nothing. In every
case the log buffer and both rolling-history arrays are not reset. -/
theorem lifecycle_flip_amended (m : Model) (c : Container)
    (hne : ¬ m.containers.length = 0)
    (hc : m.containers.getD m.cursor.toNat defaultContainer = c)
    (hsel : m.currentContainerID = c.id) :
    (c.state ≠ "running" →
      (updateStatsAndLogsForCursor m).1 =
        { m with statsCancel := false, currentStats := none } ∧
      (updateStatsAndLogsForCursor m).2 = []) ∧
    (c.state = "running" → m.statsCancel = false →
      (updateStatsAndLogsForCursor m).1 =
        { m with statsCancel := true, statsChanOpen := true, statsErrChanOpen := true } ∧
      (updateStatsAndLogsForCursor m).2 = [Cmd.waitForStats]) ∧
    (c.state = "running" → m.statsCancel = true →
      updateStatsAndLogsForCursor m = (m, [])) := by
  unfold updateStatsAndLogsForCursor
  rw [if_neg hne]
  dsimp only
  rw [hc]
  have hchanged : (m.currentContainerID != c.id) = false := by
    simp [hsel]
  rw [hchanged]
  unfold logsBlock
  rw [if_neg (by simp)]
  unfold statsBlock
  refine ⟨?_, ?_, ?_⟩
  · intro hst
    rw [if_neg hst]
    exact ⟨rfl, rfl⟩
  · intro hst hsc
    rw [if_pos hst, hsc]
    rw [if_pos (by simp)]
    exact ⟨rfl, rfl⟩
  · intro hst hsc
    rw [if_pos hst, hsc]
    rw [if_neg (by simp)]
    rfl

/-- Witness for C8 amended: a running container is selected, the selection
is unchanged and no stats handle is live, so the re-evaluation opens only
the stats stream. -/
theorem lifecycle_flip_amended_witness :
    (updateStatsAndLogsForCursor flipRunningModel).1 =
      { flipRunningModel with
          statsCancel := true, statsChanOpen := true, statsErrChanOpen := true } ∧
    (updateStatsAndLogsForCursor flipRunningModel).2 = [Cmd.waitForStats] :=
  (lifecycle_flip_amended flipRunningModel contRunning (by decide) (by decide)
    (by decide)).2.1 rfl rfl

lemma aggQuery_map_ts (rows : List StatsEntry) (bs : Nat) :
    (aggQuery rows bs).map DataPoint.timestamp =
      ((rows.map (fun e => bucketOf bs e.timestamp)).dedup).insertionSort (· ≤ ·) := by
  simp only [aggQuery]
  rw [List.map_map]
  exact List.map_id _

lemma aggQuery_sorted (rows : List StatsEntry) (bs : Nat) :
    List.Sorted (· ≤ ·) ((aggQuery rows bs).map DataPoint.timestamp) := by
  rw [aggQuery_map_ts]
  exact List.sorted_insertionSort _ _

lemma aggQuery_perm (rows : List StatsEntry) (bs : Nat) :
    ((aggQuery rows bs).map DataPoint.timestamp).Perm
      ((rows.map (fun e => bucketOf bs e.timestamp)).dedup) := by
  rw [aggQuery_map_ts]
  exact List.perm_insertionSort _ _

lemma aggQuery_mem (rows : List StatsEntry) (bs : Nat) (p : DataPoint)
    (hp : p ∈ aggQuery rows bs) :
    (∃ e ∈ rows, p.timestamp = bucketOf bs e.timestamp) ∧
    p.cpuPercent = listAvg ((rows.filter
      (fun e => bucketOf bs e.timestamp == p.timestamp)).map StatsEntry.cpuPercent) ∧
    p.memoryPercent = listAvg ((rows.filter
      (fun e => bucketOf bs e.timestamp == p.timestamp)).map StatsEntry.memoryPercent) := by
  unfold aggQuery at hp
  dsimp only at hp
  rw [List.mem_map] at hp
  obtain ⟨b, hb, rfl⟩ := hp
  rw [List.mem_insertionSort, List.mem_dedup, List.mem_map] at hb
  obtain ⟨e, he, hbe⟩ := hb
  subst hbe
  exact ⟨⟨e, he, rfl⟩, rfl, rfl⟩

lemma aggQuery_empty (bs : Nat) : aggQuery [] bs = [] := by
  unfold aggQuery
  rfl

lemma rawQuery_sorted (rows : List StatsEntry) :
    List.Sorted (· ≤ ·) (((rows.insertionSort tsLE).map toDataPoint).map DataPoint.timestamp) := by
  rw [List.map_map]
  exact List.Pairwise.map _ (fun a b hab => hab) (List.sorted_insertionSort tsLE rows)

/-- C2: for every database, container id, current time and time range,
Query returns rows sorted non-decreasing by timestamp; for the finest
range (30 min) it returns exactly the matching raw rows (as a sorted
permutation of them); for every coarser range it returns one row per
distinct bucket floor(timestamp / bucketWidth) * bucketWidth among the
matching rows, whose CPU and memory values are the arithmetic mean of the
raw rows falling in that bucket; and when no row matches it returns the
empty sequence rather than an error. -/
theorem query_correct (db : List StatsEntry) (cid : String) (now : Nat) (tr : TimeRange) :
    List.Sorted (· ≤ ·) ((Query db cid now tr).map DataPoint.timestamp) ∧
    (tr = .range30Min →
      (Query db cid now tr).Perm ((queryRows db cid now tr).map toDataPoint)) ∧
    (tr ≠ .range30Min →
      ((Query db cid now tr).map DataPoint.timestamp).Perm
        (((queryRows db cid now tr).map
          (fun e => bucketOf tr.bucketSize e.timestamp)).dedup) ∧
      ∀ p ∈ Query db cid now tr,
        (∃ e ∈ queryRows db cid now tr, p.timestamp = bucketOf tr.bucketSize e.timestamp) ∧
        p.cpuPercent = listAvg (((queryRows db cid now tr).filter
          (fun e => bucketOf tr.bucketSize e.timestamp == p.timestamp)).map
            StatsEntry.cpuPercent) ∧
        p.memoryPercent = listAvg (((queryRows db cid now tr).filter
          (fun e => bucketOf tr.bucketSize e.timestamp == p.timestamp)).map
            StatsEntry.memoryPercent)) ∧
    (queryRows db cid now tr = [] → Query db cid now tr = []) := by
  cases tr with
  | range30Min =>
    refine ⟨rawQuery_sorted _, fun _ => ?_, fun hne => absurd rfl hne, fun he => ?_⟩
    · exact (List.perm_insertionSort tsLE _).map toDataPoint
    · show ((queryRows db cid now .range30Min).insertionSort tsLE).map toDataPoint = []
      rw [he]
      rfl
  | range1Hour =>
    refine ⟨aggQuery_sorted _ _, fun hc => absurd hc (by decide),
      fun _ => ⟨aggQuery_perm _ _, fun p hp => aggQuery_mem _ _ p hp⟩, fun he => ?_⟩
    show aggQuery (queryRows db cid now .range1Hour) _ = []
    rw [he]
    exact aggQuery_empty _
  | range6Hour =>
    refine ⟨aggQuery_sorted _ _, fun hc => absurd hc (by decide),
      fun _ => ⟨aggQuery_perm _ _, fun p hp => aggQuery_mem _ _ p hp⟩, fun he => ?_⟩
    show aggQuery (queryRows db cid now .range6Hour) _ = []
    rw [he]
    exact aggQuery_empty _
  | range1Day =>
    refine ⟨aggQuery_sorted _ _, fun hc => absurd hc (by decide),
      fun _ => ⟨aggQuery_perm _ _, fun p hp => aggQuery_mem _ _ p hp⟩, fun he => ?_⟩
    show aggQuery (queryRows db cid now .range1Day) _ = []
    rw [he]
    exact aggQuery_empty _
  | range1Week =>
    refine ⟨aggQuery_sorted _ _, fun hc => absurd hc (by decide),
      fun _ => ⟨aggQuery_perm _ _, fun p hp => aggQuery_mem _ _ p hp⟩, fun he => ?_⟩
    show aggQuery (queryRows db cid now .range1Week) _ = []
    rw [he]
    exact aggQuery_empty _

/-- Witness for C2: a two-row database queried at the finest range returns
a permutation of the matching raw rows, and a container with no rows
yields the empty sequence. -/
theorem query_correct_witness :
    List.Perm (Query [demoEntry2, demoEntry] "a" 1000 .range30Min)
      ((queryRows [demoEntry2, demoEntry] "a" 1000 .range30Min).map toDataPoint) ∧
    Query [demoEntry2, demoEntry] "other" 1000 .range1Week = [] :=
  ⟨(query_correct [demoEntry2, demoEntry] "a" 1000 .range30Min).2.1 rfl,
   (query_correct [demoEntry2, demoEntry] "other" 1000 .range1Week).2.2.2 (by decide)⟩

end DockerMonitor
